import Mathlib

/-!
Shallow embedding of the content publication engine of the
for-love-of-travel-admin-backend repository.

The embedding follows the source:
- ContentPage model and findPublished (src/unnamed/part_003, contentPageSchema);
- admin controller: saveContentPage, publishContentPage, updateAdminPost
  (src/unnamed/part_007);
- public controller: getPublicContentPage, getPublicPostBySlug
  (src/unnamed/part_006);
- Post model pre-save publishedAt hook (src/src/models/Post.js, lines 272-278);
- admin routes and their permission middleware (src/src/routes/admin.js).

Mongo documents become Lean structures; the singleton ContentPage store is an
Option ContentPage; the post store is a List Post.  findOneAndUpdate with a
plain object is field-wise assignment of exactly the given keys (absent keys
are preserved).  Document pre-save middleware does not run on
findByIdAndUpdate / findOneAndUpdate, so the update paths apply the request
body directly.  Timestamps are naturals (milliseconds since epoch).
-/

/-- One entry of an imageGallery section's props.images array
(src/unnamed/part_003, imageGallerySectionSchema). -/
structure GalleryImage where
  url : String
  alt : Option String := none
  caption : Option String := none
deriving DecidableEq, Repr

/-- Props of a content section.  saveContentPage reads only props.images
(src/unnamed/part_007, line 313); every other prop is carried verbatim into
storage (sections are Schema.Types.Mixed), modelled as an opaque key/value
list. -/
structure SectionProps where
  images : Option (List GalleryImage) := none
  fields : List (String × String) := []
deriving DecidableEq, Repr

/-- A raw content-builder section as submitted in the request body: a type
discriminator string plus props. -/
structure ContentSection where
  type : String
  props : SectionProps
deriving DecidableEq, Repr

/-- SEO block of the content page (src/unnamed/part_003, contentPageSchema.seo). -/
structure Seo where
  title : Option String := none
  description : Option String := none
deriving DecidableEq, Repr

/-- The ContentPage document (src/unnamed/part_003, contentPageSchema).
publishedAt is stored as a timestamp; the schema stores the ISO string of the
same instant. -/
structure ContentPage where
  slug : String := "content"
  status : String := "draft"
  sections : List ContentSection := []
  seo : Option Seo := none
  version : Nat := 1
  publishedAt : Option Nat := none
deriving DecidableEq, Repr

/-- Result of a content-page endpoint: an HTTP error (status, message) or a
success payload carrying the page. -/
inductive PageResult where
  | err (status : Nat) (message : String)
  | ok (page : ContentPage)
deriving DecidableEq, Repr

/-- The check applied to one section by the saveContentPage loop
(src/unnamed/part_007, line 313): the section has type imageGallery and its
props.images is missing or empty. -/
def emptyGallery (s : ContentSection) : Bool :=
  s.type == "imageGallery" &&
    (match s.props.images with
     | none => true
     | some imgs => imgs.isEmpty)

/-- The section-validation loop of saveContentPage (src/unnamed/part_007,
lines 312-319): return the first error message, if any. -/
def validateSections : List ContentSection → Option String
  | [] => none
  | s :: rest =>
    if emptyGallery s then some "Gallery must have at least one image"
    else validateSections rest

/-- saveContentPage (src/unnamed/part_007, lines 298-343).  On validation
failure, respond 400 and leave the store untouched.  On success,
findOneAndUpdate with upsert assigns slug, status draft, the submitted
sections, the submitted seo when given (an absent seo key leaves the stored
seo alone), and version 1; publishedAt is not among the assigned keys, so an
existing publishedAt is preserved. -/
def saveContentPage (db : Option ContentPage) (sections : List ContentSection)
    (seo : Option Seo) : Option ContentPage × PageResult :=
  match validateSections sections with
  | some msg => (db, .err 400 msg)
  | none =>
    let page : ContentPage :=
      match db with
      | some p =>
        { p with
          slug := "content"
          status := "draft"
          sections := sections
          seo := match seo with | some s => some s | none => p.seo
          version := 1 }
      | none =>
        { slug := "content", status := "draft", sections := sections,
          seo := seo, version := 1, publishedAt := none }
    (some page, .ok page)

/-- The record written by publishContentPage over the current document: the
whole document with status published, publishedAt set to the current instant
and version incremented; in the source the increment is (version || 0) + 1,
which on a natural version is version + 1. -/
def publishedSnapshot (p : ContentPage) (now : Nat) : ContentPage :=
  { p with
    status := "published"
    publishedAt := some now
    version := p.version + 1 }

/-- publishContentPage (src/unnamed/part_007, lines 348-397).  With no
document, respond 404 and write nothing; otherwise write the snapshot back
to the singleton and return it.  The revalidation webhook does not touch the
store and is omitted. -/
def publishContentPage (db : Option ContentPage) (now : Nat) :
    Option ContentPage × PageResult :=
  match db with
  | none => (none, .err 404 "Content page not found")
  | some p => (some (publishedSnapshot p now), .ok (publishedSnapshot p now))

/-- ContentPage.findPublished (src/unnamed/part_003, lines 100-102):
findOne with status published and slug content, over the singleton store. -/
def findPublished (db : Option ContentPage) : Option ContentPage :=
  match db with
  | none => none
  | some p => if p.status == "published" && p.slug == "content" then some p else none

/-- getPublicContentPage (src/unnamed/part_006, lines 8-34): the public
GET /content-page?version=published read path. -/
def getPublicContentPage (db : Option ContentPage) : PageResult :=
  match findPublished db with
  | none => .err 404 "Content page not found"
  | some p => .ok p

/-- The Post document, restricted to the fields the verified operations read
or write (src/src/models/Post.js, postSchema); views stands for stats.views. -/
structure Post where
  id : Nat
  title : String
  slug : String
  body : String
  tags : List String
  status : String := "draft"
  author : Nat
  publishedAt : Option Nat := none
  scheduledAt : Option Nat := none
  views : Nat := 0
deriving DecidableEq, Repr

/-- An authenticated actor: req.user.  The can field is the permission lookup
attached to the user object (consulted both by the route middleware and by
updateAdminPost). -/
structure User where
  id : Nat
  can : String → Bool

/-- Result of a post mutation endpoint: an HTTP error, or success with the
response message and the updated document. -/
inductive PostResult where
  | err (status : Nat) (message : String)
  | ok (message : String) (post : Post)
deriving DecidableEq, Repr

/-- Result of the public post read: an HTTP error or the returned document. -/
inductive ReadResult where
  | err (status : Nat) (message : String)
  | ok (post : Post)
deriving DecidableEq, Repr

/-- The PATCH /api/admin/posts/:id request body, restricted to the keys the
route validators admit and the controller reads (src/src/routes/admin.js,
lines 53-63); scheduledAt is the parsed ISO8601 instant. -/
structure UpdateBody where
  title : Option String := none
  slug : Option String := none
  body : Option String := none
  tags : Option (List String) := none
  status : Option String := none
  scheduledAt : Option Nat := none
  publishedAt : Option Nat := none
deriving DecidableEq, Repr

/-- findByIdAndUpdate with the request body (src/unnamed/part_007, lines
214-218): field-wise assignment of exactly the keys present in the body;
document pre-save middleware does not run on this path. -/
def applyBody (p : Post) (b : UpdateBody) : Post :=
  { p with
    title := b.title.getD p.title
    slug := b.slug.getD p.slug
    body := b.body.getD p.body
    tags := b.tags.getD p.tags
    status := b.status.getD p.status
    scheduledAt := match b.scheduledAt with | some t => some t | none => p.scheduledAt
    publishedAt := match b.publishedAt with | some t => some t | none => p.publishedAt }

/-- The pre-save publishedAt middleware of the Post model
(src/src/models/Post.js, lines 272-278): on a document save where status was
modified to published and no publishedAt exists, stamp the current time.
Mongoose runs this on save and create only, never on findByIdAndUpdate. -/
def preSavePublishedAt (p : Post) (statusModified : Bool) (now : Nat) : Post :=
  if statusModified && p.status == "published" && p.publishedAt.isNone then
    { p with publishedAt := some now }
  else p

/-- The author-ownership guard of updateAdminPost (src/unnamed/part_007,
line 173): block when the actor is not the author and also lacks post:edit. -/
def authBlocked (post : Post) (user : User) : Bool :=
  post.author != user.id && !(user.can "post:edit")

/-- Target statuses that trigger the publishing preconditions
(src/unnamed/part_007, line 181). -/
def publishable (st : String) : Bool :=
  st == "review" || st == "scheduled" || st == "published"

/-- Whitespace characters recognized by the JS string trim applied to the
body field (ASCII portion). -/
def wsChar (c : Char) : Bool :=
  c == ' ' || c == '\t' || c == '\n' || c == '\r'

/-- The test body.trim().length === 0 of updateAdminPost (src/unnamed/
part_007, line 182): the string is empty or entirely whitespace. -/
def blankBody (s : String) : Bool :=
  s.toList.all wsChar

/-- The business-rule validation block of updateAdminPost
(src/unnamed/part_007, lines 181-212), returning the first failure message:
for a publishable target status, the body must be present and non-blank, tags
must be present and non-empty, and a scheduled target additionally needs a
scheduledAt that is strictly after the current time (a missing scheduledAt
and a non-future one both yield Invalid date). -/
def statusValidationError (b : UpdateBody) (now : Nat) : Option String :=
  match b.status with
  | none => none
  | some st =>
    if publishable st then
      if blankBody (b.body.getD "") then some "Body required for publishing"
      else if (b.tags.getD []).isEmpty then some "Select at least one"
      else if st == "scheduled" then
        match b.scheduledAt with
        | none => some "Invalid date"
        | some t => if t ≤ now then some "Invalid date" else none
      else none
    else none

/-- The response message of a successful updateAdminPost
(src/unnamed/part_007, lines 224-227). -/
def updateMessage (b : UpdateBody) : String :=
  match b.status with
  | some st =>
    if st == "review" then "Sent for review"
    else if st == "published" then "Published"
    else if st == "scheduled" then "Scheduled"
    else "Post updated successfully"
  | none => "Post updated successfully"

/-- The body of updateAdminPost once findById has hit (src/unnamed/part_007,
lines 172-233): ownership guard, business-rule validation, then
findByIdAndUpdate with the request body. -/
def updateFoundPost (post : Post) (user : User) (b : UpdateBody) (now : Nat) :
    Option Post × PostResult :=
  if authBlocked post user then
    (some post, .err 403 "Not authorized to edit this post")
  else
    match statusValidationError b now with
    | some msg => (some post, .err 400 msg)
    | none => (some (applyBody post b), .ok (updateMessage b) (applyBody post b))

/-- updateAdminPost (src/unnamed/part_007, lines 152-237), acting on the
looked-up post (none when findById missed). -/
def updateAdminPost (postOpt : Option Post) (user : User) (b : UpdateBody)
    (now : Nat) : Option Post × PostResult :=
  match postOpt with
  | none => (none, .err 404 "Post not found")
  | some post => updateFoundPost post user b now

/-- Modelled from the spec: the can permission middleware of
src/middleware/auth.js, which is not part of the repository snapshot (only
its uses in src/src/routes/admin.js are).  Per the spec, an authorization
failure is a 403 whose message names the missing action; a passing check
hands the request to the controller unchanged. -/
def canMiddleware (user : User) (action : String) : Option (Nat × String) :=
  if user.can action then none
  else some (403, "Not authorized: missing permission " ++ action)

/-- The PATCH /api/admin/posts/:id route pipeline (src/src/routes/admin.js,
lines 53-63): the can post:edit middleware gates updateAdminPost. -/
def adminPatchPost (user : User) (postOpt : Option Post) (b : UpdateBody)
    (now : Nat) : Option Post × PostResult :=
  match canMiddleware user "post:edit" with
  | some (code, msg) => (postOpt, .err code msg)
  | none => updateAdminPost postOpt user b now

/-- getPublicPostBySlug (src/unnamed/part_006, lines 39-75): find the first
published post with the slug; on a hit, $inc its stats.views by 1 in the
store and return the fetched document with views bumped by 1. -/
def getPublicPostBySlug (db : List Post) (slug : String) :
    List Post × ReadResult :=
  match db.find? (fun q => q.slug == slug && q.status == "published") with
  | none => (db, .err 404 "Post not found")
  | some p =>
    (db.map (fun q => if q.id == p.id then { q with views := q.views + 1 } else q),
     .ok { p with views := p.views + 1 })

/-- ASCII lowercasing, as toLowerCase acts on the titles involved here. -/
def lowerChar (c : Char) : Char :=
  if ('A' ≤ c) && (c ≤ 'Z') then Char.ofNat (c.toNat + 32) else c

/-- Character class kept by the slug generator of createAdminPost
(src/unnamed/part_007, line 112). -/
def slugChar (c : Char) : Bool :=
  (('a' ≤ c) && (c ≤ 'z')) || (('0' ≤ c) && (c ≤ '9')) || c == ' ' || c == '-'

/-- Replace each remaining space by a dash (after filtering, spaces are the
only whitespace left, so this matches the whitespace-run replacement composed
with the dash-run collapse below). -/
def dashSpaces : List Char → List Char
  | [] => []
  | c :: rest => (if c == ' ' then '-' else c) :: dashSpaces rest

/-- Collapse runs of dashes to a single dash. -/
def collapseDashes : List Char → List Char
  | [] => []
  | c :: rest =>
    match c, collapseDashes rest with
    | '-', '-' :: tail => '-' :: tail
    | _, tail => c :: tail

/-- The title-to-slug derivation used when creating a post without an
explicit slug (src/unnamed/part_007, lines 110-115): lowercase, drop
characters outside the slug class, turn whitespace runs into single dashes,
collapse dash runs. -/
def slugify (title : String) : String :=
  String.mk (collapseDashes (dashSpaces ((title.toList.map lowerChar).filter slugChar)))

/-- A hero section as seeded by the snapshot-isolation test of the repository
(tests/cms preview_publish spec). -/
def heroOriginal : ContentSection :=
  { type := "hero",
    props := { images := none,
               fields := [("imageUrl", "https://example.com/hero1.jpg"),
                          ("title", "Original Title")] } }

/-- The hero section submitted by the post-publish draft edit in the same
test. -/
def heroModified : ContentSection :=
  { type := "hero",
    props := { images := none,
               fields := [("imageUrl", "https://example.com/hero2.jpg"),
                          ("title", "Modified Title")] } }

/-- The seeded draft content page before the publish under test. -/
def seedDraftPage : ContentPage :=
  { slug := "content", status := "draft", sections := [heroOriginal],
    seo := none, version := 1, publishedAt := none }

/-- The snapshot written by publishing seedDraftPage at instant 100. -/
def snapshotPage : ContentPage :=
  { slug := "content", status := "published", sections := [heroOriginal],
    seo := none, version := 2, publishedAt := some 100 }

/-- The singleton document after the post-publish save of heroModified. -/
def draftAfterSave : ContentPage :=
  { slug := "content", status := "draft", sections := [heroModified],
    seo := none, version := 1, publishedAt := some 100 }

/-- A minimal valid text section used in concrete counterexamples. -/
def textSec : ContentSection :=
  { type := "text", props := { images := none, fields := [("html", "hello")] } }

/-- A published content page at version 2. -/
def pageV2 : ContentPage :=
  { slug := "content", status := "published", sections := [textSec],
    seo := none, version := 2, publishedAt := some 50 }

/-- A section whose type is none of the six registered variants. -/
def bogusSection : ContentSection :=
  { type := "bogus", props := { images := none, fields := [] } }

/-- An imageGallery section with an empty images array. -/
def emptyGallerySection : ContentSection :=
  { type := "imageGallery", props := { images := some [], fields := [] } }

/-- A draft post with no publishedAt, owned by author 7. -/
def draftPost : Post :=
  { id := 1, title := "Test Post", slug := "test-post",
    body := "This is a test post body with enough content.",
    tags := ["test"], status := "draft", author := 7,
    publishedAt := none, scheduledAt := none, views := 0 }

/-- An actor holding every permission (an admin or editor). -/
def editorUser : User := { id := 9, can := fun _ => true }

/-- The request body of a publish transition for draftPost. -/
def publishBody : UpdateBody :=
  { body := some "This is a test post body with enough content.",
    tags := some ["test"], status := some "published" }

/-- The stored post after updateAdminPost applies publishBody to draftPost. -/
def postAfterPublishUpdate : Post := applyBody draftPost publishBody

/-- The request body of a schedule transition with a future date. -/
def scheduleBody : UpdateBody :=
  { body := some "This is a test post body with enough content.",
    tags := some ["test"], status := some "scheduled",
    scheduledAt := some 2000 }

/-- A request body that only changes the title. -/
def titleChangeBody : UpdateBody := { title := some "Completely New Title" }

/-- A published post used to exercise the public read path. -/
def publishedPost : Post :=
  { id := 3, title := "Live", slug := "live-post", body := "Body of the live post.",
    tags := ["t"], status := "published", author := 7,
    publishedAt := some 40, scheduledAt := none, views := 5 }

/- ------------------------------------------------------------------ -/
/- Helper lemmas -/
/- ------------------------------------------------------------------ -/

theorem validateSections_of_any {l : List ContentSection}
    (h : l.any emptyGallery = true) :
    validateSections l = some "Gallery must have at least one image" := by
  induction l with
  | nil => simp at h
  | cons s rest ih =>
    by_cases hs : emptyGallery s = true
    · simp [validateSections, hs]
    · have hrest : rest.any emptyGallery = true := by
        simp only [List.any_cons, Bool.or_eq_true] at h
        exact h.resolve_left hs
      simp [validateSections, hs, ih hrest]

theorem validateSections_of_not_any {l : List ContentSection}
    (h : l.any emptyGallery = false) :
    validateSections l = none := by
  induction l with
  | nil => rfl
  | cons s rest ih =>
    simp only [List.any_cons, Bool.or_eq_false_iff] at h
    simp [validateSections, h.1, ih h.2]

theorem saveContentPage_cases (db : Option ContentPage)
    (sections : List ContentSection) (seo : Option Seo) :
    (∃ msg, saveContentPage db sections seo = (db, PageResult.err 400 msg)) ∨
    (∃ p, saveContentPage db sections seo = (some p, PageResult.ok p) ∧
      p.version = 1 ∧ p.sections = sections ∧ p.status = "draft") := by
  unfold saveContentPage
  cases validateSections sections with
  | some msg => exact Or.inl ⟨msg, rfl⟩
  | none =>
    cases db with
    | none => exact Or.inr ⟨_, rfl, rfl, rfl, rfl⟩
    | some q => exact Or.inr ⟨_, rfl, rfl, rfl, rfl⟩

theorem saveContentPage_ok_version {db : Option ContentPage}
    {sections : List ContentSection} {seo : Option Seo} {p : ContentPage}
    (h : (saveContentPage db sections seo).2 = PageResult.ok p) :
    (saveContentPage db sections seo).1 = some p ∧ p.version = 1 ∧
      p.sections = sections ∧ p.status = "draft" := by
  rcases saveContentPage_cases db sections seo with ⟨msg, heq⟩ | ⟨q, heq, hv, hs, hst⟩
  · rw [heq] at h
    simp at h
  · rw [heq] at h
    simp only [PageResult.ok.injEq] at h
    subst h
    rw [heq]
    exact ⟨rfl, hv, hs, hst⟩

theorem authBlocked_false_of_can (post : Post) {user : User}
    (h : user.can "post:edit" = true) : authBlocked post user = false := by
  simp [authBlocked, h]

/- ------------------------------------------------------------------ -/
/- Claim theorems -/
/- ------------------------------------------------------------------ -/

/-- C1: the claim (and the repository's own preview_publish test) says that
after a publish, a further save modifies only the draft while the public
published read keeps returning the snapshot taken at publish time.  The code
keeps a single document: replaying the test sequence, the publish of
seedDraftPage at instant 100 yields snapshotPage, the following save of a
modified hero succeeds and overwrites that very document with status draft,
and the public read then answers 404 Content page not found instead of the
snapshot. -/
theorem contentPage_snapshot_not_isolated :
    publishContentPage (some seedDraftPage) 100 =
      (some snapshotPage, PageResult.ok snapshotPage) ∧
    saveContentPage (some snapshotPage) [heroModified] none =
      (some draftAfterSave, PageResult.ok draftAfterSave) ∧
    getPublicContentPage (some draftAfterSave) =
      PageResult.err 404 "Content page not found" ∧
    getPublicContentPage (some draftAfterSave) ≠ PageResult.ok snapshotPage := by
  refine ⟨rfl, rfl, rfl, ?_⟩
  decide

/-- C2 counterexample: saving over the published page at version 2 succeeds
and stores version 1, so the stored version is not unchanged from its
pre-save value (it decreased, from 2 to 1). -/
theorem save_version_reset_counterexample :
    (saveContentPage (some pageV2) [textSec] none).2 =
      PageResult.ok { pageV2 with status := "draft", version := 1 } ∧
    ({ pageV2 with status := "draft", version := 1 } : ContentPage).version ≠
      pageV2.version := by
  refine ⟨rfl, ?_⟩
  decide

/-- C2 amended: every successful save stores version 1 unconditionally, so
the version is unchanged by a save exactly when it was already 1, and
decreases whenever the pre-save version was larger. -/
theorem saveContentPage_sets_version_one (db : Option ContentPage)
    (sections : List ContentSection) (seo : Option Seo) (p : ContentPage)
    (h : (saveContentPage db sections seo).2 = PageResult.ok p) :
    (saveContentPage db sections seo).1 = some p ∧ p.version = 1 :=
  ⟨(saveContentPage_ok_version h).1, (saveContentPage_ok_version h).2.1⟩

/-- C2 amended, witness at a concrete input. -/
theorem saveContentPage_sets_version_one_witness :
    (saveContentPage (some pageV2) [textSec] none).1 =
      some { pageV2 with status := "draft", version := 1 } ∧
    ({ pageV2 with status := "draft", version := 1 } : ContentPage).version = 1 :=
  saveContentPage_sets_version_one (some pageV2) [textSec] none
    { pageV2 with status := "draft", version := 1 } rfl

/-- C3: publishing an existing page at version N writes exactly one record
with version N + 1, status published, and publishedAt equal to the evaluation
instant, which lies between call start and return; publishing with no page
responds 404 Content page not found and writes nothing. -/
theorem publishContentPage_spec (p : ContentPage) (tPre t tPost : Nat)
    (hpre : tPre ≤ t) (hpost : t ≤ tPost) :
    (∃ q, publishContentPage (some p) t = (some q, PageResult.ok q) ∧
        q.version = p.version + 1 ∧ q.status = "published" ∧
        q.publishedAt = some t ∧
        (∀ ts, q.publishedAt = some ts → tPre ≤ ts ∧ ts ≤ tPost)) ∧
    publishContentPage none t =
      (none, PageResult.err 404 "Content page not found") := by
  refine ⟨⟨publishedSnapshot p t, rfl, rfl, rfl, rfl, ?_⟩, rfl⟩
  intro ts hts
  have hts2 : t = ts := by
    simpa [publishedSnapshot] using hts
  exact ⟨hts2 ▸ hpre, hts2 ▸ hpost⟩

/-- C3 witness at a concrete page and time window. -/
theorem publishContentPage_spec_witness :
    (∃ q, publishContentPage (some seedDraftPage) 7 = (some q, PageResult.ok q) ∧
        q.version = seedDraftPage.version + 1 ∧ q.status = "published" ∧
        q.publishedAt = some 7 ∧
        (∀ ts, q.publishedAt = some ts → 5 ≤ ts ∧ ts ≤ 9)) ∧
    publishContentPage none 7 =
      (none, PageResult.err 404 "Content page not found") :=
  publishContentPage_spec seedDraftPage 5 7 9 (by decide) (by decide)

/-- C4: the claim says that an update whose target status is published stamps
publishedAt when none exists.  The controller performs the update through
findByIdAndUpdate, which bypasses the pre-save middleware that implements the
stamp, so the stored post keeps publishedAt none; the model's own hook,
applied to the same document, would have set it. -/
theorem updateAdminPost_does_not_set_publishedAt :
    updateAdminPost (some draftPost) editorUser publishBody 1000 =
      (some postAfterPublishUpdate,
       PostResult.ok "Published" postAfterPublishUpdate) ∧
    postAfterPublishUpdate.status = "published" ∧
    postAfterPublishUpdate.publishedAt = none ∧
    (preSavePublishedAt postAfterPublishUpdate true 1000).publishedAt = some 1000 :=
  ⟨rfl, rfl, rfl, rfl⟩

/-- C5 counterexample: a save whose only section has the unknown type bogus
is not rejected: it succeeds with 200 and persists the section. -/
theorem unknown_section_type_accepted :
    saveContentPage none [bogusSection] none =
      (some { slug := "content", status := "draft", sections := [bogusSection],
              seo := none, version := 1, publishedAt := none },
       PageResult.ok { slug := "content", status := "draft",
                       sections := [bogusSection], seo := none, version := 1,
                       publishedAt := none }) := rfl

/-- C5 amended: the only structural rule the save enforces is the
empty-gallery rule.  A save is rejected, with 400 and the exact message
Gallery must have at least one image and no write, precisely when some
section has type imageGallery with missing or empty images; every other
section list, unknown types included, is accepted and persisted in order with
status draft. -/
theorem saveContentPage_validation (db : Option ContentPage)
    (sections : List ContentSection) (seo : Option Seo) :
    (sections.any emptyGallery = true →
      saveContentPage db sections seo =
        (db, PageResult.err 400 "Gallery must have at least one image")) ∧
    (sections.any emptyGallery = false →
      ∃ p, saveContentPage db sections seo = (some p, PageResult.ok p) ∧
        p.sections = sections ∧ p.status = "draft") := by
  constructor
  · intro h
    unfold saveContentPage
    rw [validateSections_of_any h]
  · intro h
    unfold saveContentPage
    rw [validateSections_of_not_any h]
    cases db with
    | none => exact ⟨_, rfl, rfl, rfl⟩
    | some q => exact ⟨_, rfl, rfl, rfl⟩

/-- C5 amended, witness: the reject branch at a concrete empty gallery. -/
theorem saveContentPage_validation_witness :
    saveContentPage none [emptyGallerySection] none =
      (none, PageResult.err 400 "Gallery must have at least one image") :=
  (saveContentPage_validation none [emptyGallerySection] none).1 (by decide)

/-- C6 counterexample: updating only the title of draftPost succeeds, yet the
stored slug stays test-post; it is not recomputed from the new title (whose
derived slug would be completely-new-title) and no suffix is appended. -/
theorem title_change_does_not_recompute_slug :
    updateAdminPost (some draftPost) editorUser titleChangeBody 1000 =
      (some { draftPost with title := "Completely New Title" },
       PostResult.ok "Post updated successfully"
         { draftPost with title := "Completely New Title" }) ∧
    ({ draftPost with title := "Completely New Title" } : Post).slug =
      draftPost.slug ∧
    slugify "Completely New Title" ≠ draftPost.slug := by
  refine ⟨rfl, rfl, ?_⟩
  decide

/-- C6 amended: updateAdminPost never recomputes the slug: whenever the
request body carries no slug key, a successful update leaves the stored slug
exactly as it was, whatever happened to the title; there is no uniqueness
re-check or suffix policy on this path. -/
theorem updateAdminPost_slug_frame (post : Post) (user : User) (b : UpdateBody)
    (now : Nat) (hslug : b.slug = none) (m : String) (p2 : Post)
    (h : (updateAdminPost (some post) user b now).2 = PostResult.ok m p2) :
    p2.slug = post.slug := by
  simp only [updateAdminPost] at h
  unfold updateFoundPost at h
  cases hab : authBlocked post user with
  | true => rw [hab] at h; simp at h
  | false =>
    rw [hab] at h
    cases hsv : statusValidationError b now with
    | some msg => rw [hsv] at h; simp at h
    | none =>
      rw [hsv] at h
      simp only [Bool.false_eq_true, if_false, PostResult.ok.injEq] at h
      rw [← h.2]
      simp [applyBody, hslug]

/-- C6 amended, witness at a concrete title-only update. -/
theorem updateAdminPost_slug_frame_witness :
    ({ draftPost with title := "Completely New Title" } : Post).slug =
      draftPost.slug :=
  updateAdminPost_slug_frame draftPost editorUser titleChangeBody 1000 rfl
    "Post updated successfully" { draftPost with title := "Completely New Title" }
    rfl

/-- C7: any save whose section list contains an imageGallery section with a
missing or empty images array fails with 400 and exactly the message Gallery
must have at least one image, and the store is returned untouched. -/
theorem empty_gallery_save_rejected (db : Option ContentPage)
    (sections : List ContentSection) (seo : Option Seo) (s : ContentSection)
    (hmem : s ∈ sections) (hty : s.type = "imageGallery")
    (himg : s.props.images = none ∨ s.props.images = some []) :
    saveContentPage db sections seo =
      (db, PageResult.err 400 "Gallery must have at least one image") := by
  have hs : emptyGallery s = true := by
    unfold emptyGallery
    rcases himg with h | h <;> simp [hty, h]
  have hany : sections.any emptyGallery = true :=
    List.any_eq_true.mpr ⟨s, hmem, hs⟩
  unfold saveContentPage
  rw [validateSections_of_any hany]

/-- C7 witness: the empty gallery sits after a valid section and the prior
published page is left entirely unchanged. -/
theorem empty_gallery_save_rejected_witness :
    saveContentPage (some pageV2) [textSec, emptyGallerySection] none =
      (some pageV2, PageResult.err 400 "Gallery must have at least one image") :=
  empty_gallery_save_rejected (some pageV2) [textSec, emptyGallerySection] none
    emptyGallerySection (by decide) rfl (Or.inr rfl)

/-- C8: on an authorized update whose target status is scheduled and whose
body and tags preconditions hold, a missing scheduledAt and a scheduledAt not
strictly later than the current time both fail with 400 and exactly Invalid
date, leaving the post unchanged, while a strictly future scheduledAt
succeeds with the message Scheduled. -/
theorem scheduled_status_validation (post : Post) (user : User) (b : UpdateBody)
    (now : Nat)
    (hauth : post.author = user.id ∨ user.can "post:edit" = true)
    (hstatus : b.status = some "scheduled")
    (hbody : blankBody (b.body.getD "") = false)
    (htags : (b.tags.getD []).isEmpty = false) :
    (b.scheduledAt = none →
      updateAdminPost (some post) user b now =
        (some post, PostResult.err 400 "Invalid date")) ∧
    (∀ t, b.scheduledAt = some t → t ≤ now →
      updateAdminPost (some post) user b now =
        (some post, PostResult.err 400 "Invalid date")) ∧
    (∀ t, b.scheduledAt = some t → now < t →
      updateAdminPost (some post) user b now =
        (some (applyBody post b), PostResult.ok "Scheduled" (applyBody post b))) := by
  have hab : authBlocked post user = false := by
    rcases hauth with heq | hcan
    · simp [authBlocked, heq]
    · exact authBlocked_false_of_can post hcan
  have hmsg : updateMessage b = "Scheduled" := by
    simp [updateMessage, hstatus]
  refine ⟨?_, ?_, ?_⟩
  · intro hsch
    have hsv : statusValidationError b now = some "Invalid date" := by
      simp [statusValidationError, hstatus, publishable, hbody, htags, hsch]
    simp [updateAdminPost, updateFoundPost, hab, hsv]
  · intro t ht hle
    have hsv : statusValidationError b now = some "Invalid date" := by
      simp [statusValidationError, hstatus, publishable, hbody, htags, ht, hle]
    simp [updateAdminPost, updateFoundPost, hab, hsv]
  · intro t ht hlt
    have hsv : statusValidationError b now = none := by
      simp [statusValidationError, hstatus, publishable, hbody, htags, ht]
      omega
    simp [updateAdminPost, updateFoundPost, hab, hsv, hmsg]

/-- C8 witness: scheduling draftPost for instant 2000 at current time 1000
succeeds with the message Scheduled. -/
theorem scheduled_status_validation_witness :
    updateAdminPost (some draftPost) editorUser scheduleBody 1000 =
      (some (applyBody draftPost scheduleBody),
       PostResult.ok "Scheduled" (applyBody draftPost scheduleBody)) :=
  (scheduled_status_validation draftPost editorUser scheduleBody 1000
      (Or.inr rfl) rfl (by decide) (by decide)).2.2 2000 rfl (by decide)

/-- C9: a successful public read by slug bumps exactly the stats.views
counter of the matched post in the store by 1, returns the document with the
incremented count and every other field as stored, and leaves every post with
a different id untouched. -/
theorem getPublicPostBySlug_increments_views (db : List Post) (s : String)
    (p : Post)
    (hfind : db.find? (fun q => q.slug == s && q.status == "published") = some p) :
    ∃ p2, getPublicPostBySlug db s =
        (db.map (fun q => if q.id == p.id then { q with views := q.views + 1 } else q),
         ReadResult.ok p2) ∧
      p2.views = p.views + 1 ∧ p2.id = p.id ∧ p2.title = p.title ∧
      p2.slug = p.slug ∧ p2.body = p.body ∧ p2.tags = p.tags ∧
      p2.status = p.status ∧ p2.author = p.author ∧
      p2.publishedAt = p.publishedAt ∧ p2.scheduledAt = p.scheduledAt ∧
      (∀ q, q ∈ db → q.id ≠ p.id → q ∈ (getPublicPostBySlug db s).1) := by
  refine ⟨{ p with views := p.views + 1 }, ?_, rfl, rfl, rfl, rfl, rfl, rfl,
    rfl, rfl, rfl, rfl, ?_⟩
  · unfold getPublicPostBySlug
    rw [hfind]
  · intro q hq hne
    unfold getPublicPostBySlug
    rw [hfind]
    have hid : (q.id == p.id) = false := beq_eq_false_iff_ne.mpr hne
    exact List.mem_map.mpr ⟨q, hq, by simp [hid]⟩

/-- C9 witness at a concrete two-post store. -/
theorem getPublicPostBySlug_increments_views_witness :
    ∃ p2, (getPublicPostBySlug [draftPost, publishedPost] "live-post").2 =
        ReadResult.ok p2 ∧ p2.views = publishedPost.views + 1 := by
  obtain ⟨p2, heq, hv, _⟩ :=
    getPublicPostBySlug_increments_views [draftPost, publishedPost] "live-post"
      publishedPost rfl
  exact ⟨p2, by rw [heq], hv⟩

/-- C10: the admin PATCH route reaches updateAdminPost only through the can
post:edit middleware, so the controller's author-ownership 403 is
unreachable: no run of the route pipeline ever produces the error Not
authorized to edit this post, and whenever the actor holds post:edit the
pipeline is exactly the controller, whatever post is targeted and whoever
authored it. -/
theorem author_check_unreachable (user : User) (postOpt : Option Post)
    (b : UpdateBody) (now : Nat) :
    (adminPatchPost user postOpt b now).2 ≠
      PostResult.err 403 "Not authorized to edit this post" ∧
    (user.can "post:edit" = true →
      adminPatchPost user postOpt b now = updateAdminPost postOpt user b now) := by
  constructor
  · intro h
    unfold adminPatchPost canMiddleware at h
    cases hcan : user.can "post:edit" with
    | false =>
      rw [hcan] at h
      simp at h
    | true =>
      rw [hcan] at h
      simp only [if_true] at h
      cases postOpt with
      | none => simp [updateAdminPost] at h
      | some post =>
        have hab := authBlocked_false_of_can post hcan
        simp only [updateAdminPost] at h
        unfold updateFoundPost at h
        rw [hab] at h
        cases hsv : statusValidationError b now with
        | some msg => rw [hsv] at h; simp at h
        | none => rw [hsv] at h; simp at h
  · intro hcan
    unfold adminPatchPost canMiddleware
    rw [hcan]
    simp

/-- C10 witness: an actor with post:edit who is not the author (id 9 against
author 7) goes straight to the controller and never sees the ownership 403. -/
theorem author_check_unreachable_witness :
    (adminPatchPost editorUser (some draftPost) publishBody 1000).2 ≠
      PostResult.err 403 "Not authorized to edit this post" ∧
    adminPatchPost editorUser (some draftPost) publishBody 1000 =
      updateAdminPost (some draftPost) editorUser publishBody 1000 :=
  ⟨(author_check_unreachable editorUser (some draftPost) publishBody 1000).1,
   (author_check_unreachable editorUser (some draftPost) publishBody 1000).2 rfl⟩
